import Mathlib

/-!
Verification of the deep-research-mcp task orchestrator and clarification pipeline.

Shallow embedding of the core of `deep_research_mcp`:

* `DeepResearchAgent._extract_openai_results` (src/deep_research_mcp/agent.py),
* `DeepResearchAgent._wait_for_completion` (the polling loop with timeout and
  best-effort cancellation),
* `DeepResearchAgent.research` (the facade, with submission and polling
  abstracted as oracles),
* `ClarificationManager.add_answers` / `get_enriched_query` and
  `ClarifierAgent.enrich_query` (src/deep_research_mcp/clarification.py),
* `RateLimiter.acquire` (src/deep_research_mcp/rate_limiter.py).

Python floats for wall-clock times and token counts are modelled as rationals;
Python dict results are modelled as typed inductives whose optional fields
record key presence/absence; fallible remote calls are modelled as oracle
functions returning `Except`/sum-like outcomes.
-/

set_option autoImplicit false

namespace DeepResearchMCP

/-! ## Data model: provider responses (OpenAI Responses API objects) -/

/-- A citation annotation attached to a content block
(`annotation.title / url / start_index / end_index` in the source). -/
structure Annotation where
  title : String
  url : String
  start_index : Int
  end_index : Int
  deriving DecidableEq, Repr

/-- A content block of an output item (`content[0].text`, `.annotations`). -/
structure ContentBlock where
  text : String
  annotations : List Annotation
  deriving DecidableEq, Repr

/-- One item of `response.output`.  `summary = none` models the attribute
being absent (`hasattr(item, "summary")` false); `action = none` models
`hasattr(item, "action")` false, and `action = some q` models an action object
whose `query` attribute is `q` (`none` inside means `getattr` falls back to `""`). -/
structure OutputItem where
  type : String
  content : List ContentBlock
  summary : Option String
  action : Option (Option String)
  deriving DecidableEq, Repr

/-- The `error` attribute of a response.  `absent` models `getattr(response,
"error", None)` returning `None`; `mapping` models a dict payload (an
association list, so `.get` and Python truthiness are both expressible);
`scalar s` models a non-dict payload whose `str()` form is `s`. -/
inductive PyError where
  | absent : PyError
  | mapping : List (String × String) → PyError
  | scalar : String → PyError
  deriving DecidableEq, Repr

/-- Python `d.get(k)` on the association-list model of a dict. -/
def pyGet (m : List (String × String)) (k : String) : Option String :=
  (m.find? (fun p => p.1 = k)).map (fun p => p.2)

/-- Python truthiness of an error payload: `None` is falsy, a dict is truthy
iff non-empty, a string scalar is truthy iff non-empty. -/
def PyError.truthy : PyError → Bool
  | PyError.absent => false
  | PyError.mapping m => !m.isEmpty
  | PyError.scalar s => s ≠ ""

/-- A provider response snapshot (`response.id / status / error / output`). -/
structure Response where
  id : String
  status : String
  error : PyError
  output : List OutputItem
  deriving DecidableEq, Repr

/-! ## Result extraction: `_extract_openai_results` -/

/-- A structured citation record produced by result extraction. -/
structure Citation where
  index : Nat
  title : String
  url : String
  start_char : Int
  end_char : Int
  deriving DecidableEq, Repr

/-- The result dictionary of `_extract_openai_results`.  In `failed`,
`error_code = none` models the `"error_code"` key being absent (the scalar
payload branch) while `some c` models the key being present with value `c`
(possibly `None`); `task_id = none` models the `"task_id"` key being absent
(the falsy-payload branch). -/
inductive ExtractResult where
  | failed (message : String) (error_code : Option (Option String)) (task_id : Option String)
  | error (message : String)
  | completed (final_report : String) (citations : List Citation)
      (reasoning_steps : Nat) (search_queries : List String)
      (total_steps : Nat) (task_id : String)
  deriving DecidableEq, Repr

/-- The citations list of an extraction result (empty unless `completed`). -/
def ExtractResult.citationsOf : ExtractResult → List Citation
  | ExtractResult.completed _ cits _ _ _ _ => cits
  | _ => []

/-- Translation of `for i, annotation in enumerate(...)`: build the citation list, carrying
the running 0-based enumeration index. -/
def buildCitations : Nat → List Annotation → List Citation
  | _, [] => []
  | i, a :: rest =>
      { index := i + 1, title := a.title, url := a.url,
        start_char := a.start_index, end_char := a.end_index } :: buildCitations (i + 1) rest

/-- Tail of `_extract_openai_results` for a non-failed response with at least
one output item (`response.output = o :: os`): final report and citations
come from the first content block of the last output item, step statistics scan
the whole output list. -/
def extract_output_results (r : Response) (o : OutputItem) (os : List OutputItem) : ExtractResult :=
  let final_output := (o :: os).getLast (List.cons_ne_nil o os)
  let final_report :=
    match final_output.content with
    | [] => ""
    | cb :: _ => cb.text
  let citations :=
    match final_output.content with
    | [] => []
    | cb :: _ => if cb.annotations.isEmpty then [] else buildCitations 0 cb.annotations
  let reasoning_steps :=
    (r.output.filter (fun item => item.type = "reasoning" && item.summary.isSome)).length
  let search_queries :=
    (r.output.filter (fun item => item.type = "web_search_call" && item.action.isSome)).map
      (fun item => (item.action.getD none).getD "")
  ExtractResult.completed final_report citations reasoning_steps search_queries
    r.output.length r.id

/-- Embedding of `DeepResearchAgent._extract_openai_results` (agent.py lines 411-475),
translated branch by branch. -/
def extract_openai_results (r : Response) : ExtractResult :=
  if r.status = "failed" then
    if r.error.truthy then
      match r.error with
      | PyError.mapping m =>
          ExtractResult.failed ((pyGet m "message").getD "Unknown error")
            (some (pyGet m "code")) (some r.id)
      | PyError.scalar s => ExtractResult.failed s none (some r.id)
      | PyError.absent => ExtractResult.failed ("Task failed: " ++ r.id) none none
    else
      ExtractResult.failed ("Task failed: " ++ r.id) none none
  else
    match r.output with
    | [] => ExtractResult.error "No output received"
    | o :: os => extract_output_results r o os

/-! ## Polling loop: `_wait_for_completion` (agent.py lines 349-391)

The polling loop is driven by an abstract provider: `provider n` is the
outcome of the `n`-th `client.responses.retrieve(task_id)` call (either a
response snapshot or a raised exception).  Wall-clock time is threaded
explicitly as `elapsed`: a non-terminal poll sleeps `poll_interval` seconds,
and the `except Exception` handler sleeps 5 seconds.  Recursion is fuel-based;
`none` means the fuel ran out before the loop did (never happens for enough
fuel, since every iteration advances the clock).

NOTE (faithful to the source): the `raise ResearchError(error_msg)` executed
when a poll observes `status == "failed"` sits *inside* the `try` block whose
blanket `except Exception` handler follows, so that typed error is caught by
the loop itself, logged, slept on for 5 seconds and retried — it never
propagates.  The embedding records each such swallowed message in the
`swallowed` log of the exit record. -/

/-- Outcome of one `client.responses.retrieve` call. -/
inductive PollOutcome where
  | ok : Response → PollOutcome
  | exn : String → PollOutcome

/-- The two ways the polling loop can actually end (given the swallowing
noted above): return of a completed response, or a raised
`TaskTimeoutError` carrying the task id and the configured timeout value
(in the source, the message is
`f"Research task {task_id} did not complete within {timeout} seconds"`). -/
inductive WaitResult where
  | completed : Response → WaitResult
  | timeoutErr (task_id : String) (timeout_value : ℚ) : WaitResult
  deriving DecidableEq

/-- Timeout and poll interval from the configuration (`config.timeout`,
`config.poll_interval`, validated positive by `ResearchConfig.validate`). -/
structure WaitConfig where
  timeout : ℚ
  poll_interval : ℚ
  deriving DecidableEq

/-- Exit record of the polling loop: its result, the elapsed wall-clock time
at exit, how many `client.responses.cancel` attempts were made
(the cancel sits in its own `try/except: pass`, so its failure cannot
influence anything else), and the log of exception messages swallowed by the
in-loop `except Exception` handler. -/
structure WaitExit where
  result : WaitResult
  elapsed : ℚ
  cancel_attempts : Nat
  swallowed : List String
  deriving DecidableEq

/-- The error message built when a poll observes `status == "failed"`
(agent.py lines 361-371). -/
def failed_error_msg (task_id : String) (err : PyError) : String :=
  if err.truthy then
    match err with
    | PyError.mapping m =>
        let base := "Research task failed: " ++ ((pyGet m "message").getD "Unknown error")
        match pyGet m "code" with
        | some c => if c ≠ "" then base ++ " (Code: " ++ c ++ ")" else base
        | none => base
    | PyError.scalar s => "Research task failed: " ++ s
    | PyError.absent => "Research task failed: " ++ task_id
  else
    "Research task failed: " ++ task_id

/-- Embedding of `DeepResearchAgent._wait_for_completion`, fuelled.  Arguments after the
provider: remaining fuel, index of the next poll, elapsed time so far. -/
def wait_for_completion (cfg : WaitConfig) (task_id : String)
    (provider : Nat → PollOutcome) : Nat → Nat → ℚ → Option WaitExit
  | 0, _, _ => none
  | fuel + 1, n, elapsed =>
    if elapsed < cfg.timeout then
      match provider n with
      | PollOutcome.exn m =>
          (wait_for_completion cfg task_id provider fuel (n + 1) (elapsed + 5)).map
            (fun ex => { ex with swallowed := m :: ex.swallowed })
      | PollOutcome.ok r =>
          if r.status = "completed" then
            some ⟨WaitResult.completed r, elapsed, 0, []⟩
          else if r.status = "failed" then
            (wait_for_completion cfg task_id provider fuel (n + 1) (elapsed + 5)).map
              (fun ex => { ex with swallowed := failed_error_msg task_id r.error :: ex.swallowed })
          else
            wait_for_completion cfg task_id provider fuel (n + 1) (elapsed + cfg.poll_interval)
    else
      some ⟨WaitResult.timeoutErr task_id cfg.timeout, elapsed, 1, []⟩

/-- A poll outcome that keeps the loop going: a response whose status is
neither `completed` nor `failed` (the "provider stub that never reaches a
terminal state" of the spec). -/
def PollOutcome.nonTerminal : PollOutcome → Prop
  | PollOutcome.exn _ => False
  | PollOutcome.ok r => r.status ≠ "completed" ∧ r.status ≠ "failed"

/-! ## The `research` facade (agent.py lines 177-250, OpenAI provider path)

Submission (`_create_openai_research_task`, wrapped by the tenacity
`@retry(stop=stop_after_attempt(3))`) is abstracted as its final outcome:
either a task id, or the exception re-raised after the third failed attempt.
`research` wraps only the polling step in `try/except ResearchError`; the
submission call is *not* inside any handler, so an exhausted-retry exception
propagates out of `research` to its caller. -/

/-- Outcome of the retried submission: `ok id` if some attempt succeeded,
`exhausted msg` if all three attempts raised (tenacity re-raises). -/
inductive SubmitOutcome where
  | ok : String → SubmitOutcome
  | exhausted : String → SubmitOutcome

/-- What a call of `research` does to its caller: return a structured result
dictionary, or let an exception escape. -/
inductive ResearchOutcome where
  | result : ExtractResult → ResearchOutcome
  | raised : String → ResearchOutcome
  deriving DecidableEq

/-- Whether an exception escaped `research`. -/
def ResearchOutcome.isRaised : ResearchOutcome → Bool
  | ResearchOutcome.result _ => false
  | ResearchOutcome.raised _ => true

/-- Message (`str(e)`) of the `TaskTimeoutError` raised by the polling loop. -/
def timeoutMessage (task_id : String) (timeout_value : ℚ) : String :=
  "Research task " ++ task_id ++ " did not complete within "
    ++ toString timeout_value ++ " seconds"

/-- Embedding of `DeepResearchAgent.research` (OpenAI path): submit, poll (with
`except ResearchError as e: return {"status": "failed", "message": str(e)}`),
then extract.  The completion callback only logs its own failures and does
not affect the returned value, so it is omitted. -/
def research (submit : SubmitOutcome) (provider : Nat → PollOutcome)
    (cfg : WaitConfig) (fuel : Nat) : ResearchOutcome :=
  match submit with
  | SubmitOutcome.exhausted m => ResearchOutcome.raised m
  | SubmitOutcome.ok task_id =>
      match wait_for_completion cfg task_id provider fuel 0 0 with
      | none => ResearchOutcome.raised "fuel exhausted (model artifact)"
      | some ex =>
          match ex.result with
          | WaitResult.completed r => ResearchOutcome.result (extract_openai_results r)
          | WaitResult.timeoutErr t tv =>
              ResearchOutcome.result (ExtractResult.failed (timeoutMessage t tv) none none)

/-! ## Clarification pipeline (clarification.py)

The enrichment model call (`self.client.chat.completions.create` followed by
`.choices[0].message.content.strip()`) is abstracted as an oracle
`call : String → Except String String` applied to the prompt string:
`Except.ok content` is a successful call returning `content` (the `.strip()`
is then applied, as in the source), `Except.error e` is any exception raised
inside the `try` block. -/

/-- One clarification session (`ClarificationSession.__init__`). -/
structure ClarificationSession where
  session_id : String
  original_query : String
  questions : List String
  answers : List String
  deriving DecidableEq, Repr

/-- The `self._sessions` dict of the manager, as an association list. -/
def lookupSession : List (String × ClarificationSession) → String → Option ClarificationSession
  | [], _ => none
  | (k, s) :: rest, sid => if k = sid then some s else lookupSession rest sid

/-- Write a session back under its key (`session.answers = answers` mutates
the stored session object in place). -/
def setSession : List (String × ClarificationSession) → String → ClarificationSession →
    List (String × ClarificationSession)
  | [], _, _ => []
  | (k, s) :: rest, sid, s' =>
      if k = sid then (k, s') :: rest else (k, s) :: setSession rest sid s'

/-- The success dictionary returned by `add_answers`. -/
structure AddAnswersOk where
  session_id : String
  status : String
  total_questions : Nat
  answered_questions : Nat
  is_complete : Bool
  deriving DecidableEq, Repr

/-- Return value of `add_answers`: either the `{"error": ...}` dictionary or
the status summary. -/
inductive AddAnswersResult where
  | err (error : String)
  | ok (r : AddAnswersOk)
  deriving DecidableEq, Repr

/-- Projection of the `is_complete` field of an `add_answers` result, when present. -/
def AddAnswersResult.isCompleteOf : AddAnswersResult → Option Bool
  | AddAnswersResult.err _ => none
  | AddAnswersResult.ok r => some r.is_complete

/-- Embedding of `ClarificationManager.add_answers` (clarification.py lines 221-244):
unknown session id → `{"error": f"Session {session_id} not found"}` and the
table is untouched; known id → the answer list of the session is *assigned*
(`session.answers = answers`) and a status summary with
`is_complete = len(answers) >= len(questions)` is returned. -/
def add_answers (sessions : List (String × ClarificationSession)) (session_id : String)
    (answers : List String) : AddAnswersResult × List (String × ClarificationSession) :=
  match lookupSession sessions session_id with
  | none => (AddAnswersResult.err ("Session " ++ session_id ++ " not found"), sessions)
  | some s =>
      (AddAnswersResult.ok
        { session_id := session_id, status := "answers_recorded",
          total_questions := s.questions.length, answered_questions := answers.length,
          is_complete := decide (s.questions.length ≤ answers.length) },
       setSession sessions session_id { s with answers := answers })

/-- The Q&A context lines of the enrichment prompt
(a question/answer line or the `[No specific preference provided]` placeholder,
following the truthiness test in the source: answer non-empty and
non-blank after strip). -/
def formatQA (qa : String × String) : String :=
  if qa.2 ≠ "" && qa.2.trim ≠ "" then
    "Q: " ++ qa.1 ++ "\nA: " ++ qa.2
  else
    "Q: " ++ qa.1 ++ "\nA: [No specific preference provided]"

/-- The enrichment prompt built (outside the `try` block) by
`ClarifierAgent.enrich_query`; the surrounding literal guideline text is kept
in abbreviated form, the structure (original query, then the
newline-joined Q&A context) follows the source. -/
def enrichment_prompt (user_query : String) (qa_pairs : List (String × String)) : String :=
  "Original Query: \"" ++ user_query ++ "\"\n\nAdditional Context from User:\n"
    ++ String.intercalate "\n" (qa_pairs.map formatQA)
    ++ "\n\nBased on the original query and the additional context, create an enriched, "
    ++ "more specific research query that incorporates the user clarifications.\n"
    ++ "Return only the enriched query, nothing else."

/-- Embedding of `ClarifierAgent.enrich_query` (clarification.py lines 100-153): build the
prompt, call the model; on success return the stripped content, on any
exception fall back to the original query. -/
def enrich_query (call : String → Except String String) (user_query : String)
    (qa_pairs : List (String × String)) : String :=
  match call (enrichment_prompt user_query qa_pairs) with
  | Except.ok content => content.trim
  | Except.error _ => user_query

/-- Embedding of `ClarificationManager.get_enriched_query` (clarification.py lines
246-273): unknown id → `None`; known id → pair each question with its answer
(or `""` when the answer list is shorter) and run `enrich_query`. -/
def get_enriched_query (call : String → Except String String)
    (sessions : List (String × ClarificationSession)) (session_id : String) : Option String :=
  match lookupSession sessions session_id with
  | none => none
  | some s =>
      let qa_pairs := s.questions.enum.map (fun p => (p.2, s.answers.getD p.1 ""))
      some (enrich_query call s.original_query qa_pairs)

/-! ## `RateLimiter` (rate_limiter.py)

`time.time()` is abstracted into the elapsed time `dt` since the previous
refill (`now - self.last_refill`); the whole body of `acquire` runs under
`self._lock`, so one call is one atomic step on the state. -/

/-- The limiter state (`capacity`, `tokens`, `refill_rate`; `last_refill` is
folded into the per-call elapsed time). -/
structure RateLimiterState where
  capacity : ℚ
  tokens : ℚ
  refill_rate : ℚ
  deriving DecidableEq

/-- Embedding of `RateLimiter.__init__(tokens_per_minute)`. -/
def RateLimiter.init (tokens_per_minute : ℚ) : RateLimiterState :=
  { capacity := tokens_per_minute, tokens := tokens_per_minute,
    refill_rate := tokens_per_minute / 60 }

/-- Embedding of `RateLimiter.acquire(tokens)` after `dt` seconds since the last refill:
refill capped at capacity, then debit if enough tokens are available.
Returns the success flag and the new state. -/
def RateLimiter.acquire (st : RateLimiterState) (dt : ℚ) (n : ℚ) :
    Bool × RateLimiterState :=
  let tokens' := min st.capacity (st.tokens + dt * st.refill_rate)
  if n ≤ tokens' then
    (true, { st with tokens := tokens' - n })
  else
    (false, { st with tokens := tokens' })

/-- A sequence of `acquire` calls, each given as `(dt, n)`. -/
def RateLimiter.runAcquires (st : RateLimiterState) : List (ℚ × ℚ) → RateLimiterState
  | [] => st
  | (dt, n) :: rest => RateLimiter.runAcquires (RateLimiter.acquire st dt n).2 rest

/-- The token-bucket invariant: the token count stays within `[0, capacity]`. -/
def RateLimiterState.Inv (st : RateLimiterState) : Prop :=
  0 ≤ st.tokens ∧ st.tokens ≤ st.capacity

/-! ## Concrete fixtures used by the closed witness and counterexample theorems -/

/-- A response whose remote status is `failed`, with a mapping error payload. -/
def failedMappingResp : Response :=
  ⟨"task-1", "failed", PyError.mapping [("message", "X"), ("code", "E1")], []⟩

/-- A response stuck in a non-terminal status. -/
def runningResp (task_id : String) : Response :=
  ⟨task_id, "running", PyError.absent, []⟩

/-- A completed two-item response: one reasoning step, then one final message
whose first content block carries two annotations (the two-item stub of the
end-to-end scenario of the spec). -/
def completedTwoStepResp : Response :=
  ⟨"t9", "completed", PyError.absent,
    [⟨"reasoning", [], some "summary", none⟩,
     ⟨"message", [⟨"report text", [⟨"T1", "u1", 3, 7⟩, ⟨"T2", "u2", 9, 12⟩]⟩], none, none⟩]⟩

/-- A session table holding one three-question session, for the lifecycle witness. -/
def sessionsC6 : List (String × ClarificationSession) :=
  [("s6", ⟨"s6", "orig", ["q1", "q2", "q3"], []⟩)]

/-- A session table holding one two-question session, for the answer-replacement
counterexample. -/
def sessionsC7 : List (String × ClarificationSession) :=
  [("s7", ⟨"s7", "orig", ["q1", "q2"], []⟩)]

/-- A session table holding one one-question session, for the replacement witness. -/
def sessionsC7w : List (String × ClarificationSession) :=
  [("w7", ⟨"w7", "orig", ["q1"], ["old"]⟩)]

/-! ## Helper lemmas -/

theorem buildCitations_length (i : Nat) (l : List Annotation) :
    (buildCitations i l).length = l.length := by
  induction l generalizing i with
  | nil => rfl
  | cons a rest ih => simp [buildCitations, ih]

theorem buildCitations_get? (l : List Annotation) :
    ∀ (i j : Nat) (a : Annotation), l.get? j = some a →
      (buildCitations i l).get? j =
        some { index := i + j + 1, title := a.title, url := a.url,
               start_char := a.start_index, end_char := a.end_index } := by
  induction l with
  | nil => intro i j a h; simp at h
  | cons a' rest ih =>
    intro i j a h
    cases j with
    | zero =>
      simp only [List.get?] at h
      cases h
      rfl
    | succ j =>
      simp only [List.get?] at h
      have h2 := ih (i + 1) j a h
      have hidx : i + 1 + j + 1 = i + (j + 1) + 1 := by omega
      rw [hidx] at h2
      simpa [buildCitations] using h2

theorem citations_guard_eq (l : List Annotation) :
    (if l.isEmpty then ([] : List Citation) else buildCitations 0 l) = buildCitations 0 l := by
  cases l <;> simp [buildCitations]

theorem extract_eq_output_results (r : Response) (o : OutputItem) (os : List OutputItem)
    (hstatus : r.status ≠ "failed") (hout : r.output = o :: os) :
    extract_openai_results r = extract_output_results r o os := by
  unfold extract_openai_results
  rw [if_neg hstatus, hout]

theorem extract_citationsOf (r : Response) (fo : OutputItem) (cb : ContentBlock)
    (cbs : List ContentBlock)
    (hstatus : r.status ≠ "failed")
    (hlast : r.output.getLast? = some fo)
    (hcontent : fo.content = cb :: cbs) :
    (extract_openai_results r).citationsOf = buildCitations 0 cb.annotations := by
  cases hout : r.output with
  | nil => rw [hout] at hlast; simp at hlast
  | cons o os =>
    have hfo : (o :: os).getLast (List.cons_ne_nil o os) = fo := by
      rw [hout, List.getLast?_eq_getLast (o :: os) (List.cons_ne_nil o os)] at hlast
      exact Option.some.inj hlast
    rw [extract_eq_output_results r o os hstatus hout]
    have h1 : (extract_output_results r o os).citationsOf =
        (match ((o :: os).getLast (List.cons_ne_nil o os)).content with
         | [] => []
         | cb' :: _ =>
             if cb'.annotations.isEmpty then [] else buildCitations 0 cb'.annotations) := by
      simp only [extract_output_results, ExtractResult.citationsOf]
    rw [h1, hfo, hcontent]
    exact citations_guard_eq cb.annotations

theorem lookupSession_setSession (sessions : List (String × ClarificationSession))
    (sid : String) (s s' : ClarificationSession)
    (h : lookupSession sessions sid = some s) :
    lookupSession (setSession sessions sid s') sid = some s' := by
  induction sessions with
  | nil => simp [lookupSession] at h
  | cons p rest ih =>
    obtain ⟨k, v⟩ := p
    by_cases hk : k = sid
    · simp [lookupSession, setSession, hk]
    · simp only [lookupSession, setSession, if_neg hk] at h ⊢
      exact ih h

theorem wait_nonterminal_timeout_aux (cfg : WaitConfig) (tid : String)
    (provider : Nat → PollOutcome)
    (hprov : ∀ m, (provider m).nonTerminal) :
    ∀ (fuel n : Nat) (elapsed : ℚ),
      cfg.timeout ≤ elapsed + (fuel : ℚ) * cfg.poll_interval →
      elapsed < cfg.timeout + cfg.poll_interval →
      ∃ e : ℚ, wait_for_completion cfg tid provider (fuel + 1) n elapsed =
          some ⟨WaitResult.timeoutErr tid cfg.timeout, e, 1, []⟩ ∧
        cfg.timeout ≤ e ∧ e < cfg.timeout + cfg.poll_interval := by
  intro fuel
  induction fuel with
  | zero =>
    intro n elapsed hfuel hlt
    have hT : cfg.timeout ≤ elapsed := by simpa using hfuel
    refine ⟨elapsed, ?_, hT, hlt⟩
    unfold wait_for_completion
    rw [if_neg (not_lt.mpr hT)]
  | succ fuel ih =>
    intro n elapsed hfuel hlt
    by_cases hcase : elapsed < cfg.timeout
    · have hnt := hprov n
      unfold wait_for_completion
      rw [if_pos hcase]
      cases hp : provider n with
      | exn m =>
        rw [hp] at hnt
        exact hnt.elim
      | ok r =>
        rw [hp] at hnt
        obtain ⟨hc, hf⟩ := hnt
        dsimp only
        rw [if_neg hc, if_neg hf]
        refine ih (n + 1) (elapsed + cfg.poll_interval) ?_ ?_
        · push_cast at hfuel ⊢
          linarith
        · linarith
    · push_neg at hcase
      refine ⟨elapsed, ?_, hcase, hlt⟩
      unfold wait_for_completion
      rw [if_neg (not_lt.mpr hcase)]

theorem acquire_def (st : RateLimiterState) (dt n : ℚ) :
    RateLimiter.acquire st dt n =
      if n ≤ min st.capacity (st.tokens + dt * st.refill_rate) then
        (true, { st with tokens := min st.capacity (st.tokens + dt * st.refill_rate) - n })
      else
        (false, { st with tokens := min st.capacity (st.tokens + dt * st.refill_rate) }) := rfl

theorem acquire_preserves_inv (st : RateLimiterState) (dt n : ℚ)
    (hdt : 0 ≤ dt) (hn : 0 ≤ n) (hrate : 0 ≤ st.refill_rate) (hinv : st.Inv) :
    (RateLimiter.acquire st dt n).2.Inv := by
  obtain ⟨h0, hcap⟩ := hinv
  have hcap0 : 0 ≤ st.capacity := le_trans h0 hcap
  have hre : 0 ≤ st.tokens + dt * st.refill_rate :=
    add_nonneg h0 (mul_nonneg hdt hrate)
  have h1 : 0 ≤ min st.capacity (st.tokens + dt * st.refill_rate) := le_min hcap0 hre
  have h2 : min st.capacity (st.tokens + dt * st.refill_rate) ≤ st.capacity := min_le_left _ _
  rw [acquire_def]
  by_cases h : n ≤ min st.capacity (st.tokens + dt * st.refill_rate)
  · rw [if_pos h]
    refine ⟨?_, ?_⟩
    · show 0 ≤ min st.capacity (st.tokens + dt * st.refill_rate) - n
      linarith
    · show min st.capacity (st.tokens + dt * st.refill_rate) - n ≤ st.capacity
      linarith
  · rw [if_neg h]
    exact ⟨h1, h2⟩

theorem runAcquires_inv (calls : List (ℚ × ℚ)) :
    ∀ st : RateLimiterState, 0 ≤ st.refill_rate → st.Inv →
      (∀ p ∈ calls, 0 ≤ p.1 ∧ 0 ≤ p.2) →
      (RateLimiter.runAcquires st calls).Inv := by
  induction calls with
  | nil =>
    intro st _ hinv _
    exact hinv
  | cons p rest ih =>
    intro st hrate hinv hcalls
    obtain ⟨dt, n⟩ := p
    have hp := hcalls (dt, n) (List.mem_cons_self _ _)
    have hrate2 : (RateLimiter.acquire st dt n).2.refill_rate = st.refill_rate := by
      rw [acquire_def]
      by_cases h : n ≤ min st.capacity (st.tokens + dt * st.refill_rate)
      · rw [if_pos h]
      · rw [if_neg h]
    exact ih (RateLimiter.acquire st dt n).2 (hrate2 ▸ hrate)
      (acquire_preserves_inv st dt n hp.1 hp.2 hrate hinv)
      (fun q hq => hcalls q (List.mem_cons_of_mem _ hq))

theorem add_answers_updates (sessions : List (String × ClarificationSession))
    (sid : String) (s : ClarificationSession) (answers : List String)
    (h : lookupSession sessions sid = some s) :
    lookupSession (add_answers sessions sid answers).2 sid =
      some { s with answers := answers } := by
  unfold add_answers
  rw [h]
  exact lookupSession_setSession sessions sid s { s with answers := answers } h

theorem add_answers_isCompleteOf (sessions : List (String × ClarificationSession))
    (sid : String) (s : ClarificationSession) (ans : List String)
    (h : lookupSession sessions sid = some s) :
    (add_answers sessions sid ans).1.isCompleteOf =
      some (decide (s.questions.length ≤ ans.length)) := by
  unfold add_answers
  rw [h]
  rfl

/-! ## Claim theorems -/

/-- C4: for every completed provider response where the first content block
of the final output item carries N annotations, `extract_results` produces exactly N
citations, the j-th (0-based) citation having `index = j + 1` (so indices run
1..N in annotation order) and carrying the title, url and
character offsets of the j-th annotation unchanged. -/
theorem C4_citation_indexing (r : Response) (fo : OutputItem) (cb : ContentBlock)
    (cbs : List ContentBlock)
    (hstatus : r.status = "completed")
    (hlast : r.output.getLast? = some fo)
    (hcontent : fo.content = cb :: cbs) :
    ((extract_openai_results r).citationsOf).length = cb.annotations.length ∧
    ∀ (j : Nat) (a : Annotation), cb.annotations.get? j = some a →
      ((extract_openai_results r).citationsOf).get? j =
        some { index := j + 1, title := a.title, url := a.url,
               start_char := a.start_index, end_char := a.end_index } := by
  have hne : r.status ≠ "failed" := by rw [hstatus]; decide
  have hcit := extract_citationsOf r fo cb cbs hne hlast hcontent
  constructor
  · rw [hcit]; exact buildCitations_length 0 cb.annotations
  · intro j a ha
    rw [hcit]
    have h2 := buildCitations_get? cb.annotations 0 j a ha
    simpa using h2

/-- Witness for C4: on a two-step completed response whose final item carries
two annotations, extraction yields two citations, the second having index 2
and the fields of the second annotation. -/
theorem C4_witness :
    ((extract_openai_results completedTwoStepResp).citationsOf).length = 2 ∧
    ((extract_openai_results completedTwoStepResp).citationsOf).get? 1 =
      some { index := 2, title := "T2", url := "u2", start_char := 9, end_char := 12 } := by
  have h := C4_citation_indexing completedTwoStepResp
    ⟨"message", [⟨"report text", [⟨"T1", "u1", 3, 7⟩, ⟨"T2", "u2", 9, 12⟩]⟩], none, none⟩
    ⟨"report text", [⟨"T1", "u1", 3, 7⟩, ⟨"T2", "u2", 9, 12⟩]⟩ [] rfl rfl rfl
  exact ⟨h.1, h.2 1 ⟨"T2", "u2", 9, 12⟩ rfl⟩

/-- C5: for every provider response with `status = "failed"`: a truthy
mapping-like error payload yields
`{status: failed, message: payload.get("message", "Unknown error"),
error_code: payload.get("code"), task_id: response.id}` (the `error_code` key
present), and a truthy stringifiable scalar payload yields
`{status: failed, message: str(payload), task_id: response.id}` (no
`error_code` key); both shapes are handled by the same total function, so
neither raises. -/
theorem C5_failed_task_shape (r : Response) (m : List (String × String)) (s : String)
    (hstatus : r.status = "failed") :
    (r.error = PyError.mapping m → m ≠ [] →
      extract_openai_results r =
        ExtractResult.failed ((pyGet m "message").getD "Unknown error")
          (some (pyGet m "code")) (some r.id)) ∧
    (r.error = PyError.scalar s → s ≠ "" →
      extract_openai_results r = ExtractResult.failed s none (some r.id)) := by
  constructor
  · intro herr hne
    unfold extract_openai_results
    rw [if_pos hstatus, herr]
    simp [PyError.truthy, hne]
  · intro herr hne
    unfold extract_openai_results
    rw [if_pos hstatus, herr]
    simp [PyError.truthy, hne]

/-- Witness for C5: the payload `{message: "X", code: "E1"}` yields exactly
`{status: failed, message: "X", error_code: "E1", task_id: "task-1"}`, and the
scalar payload `"boom"` yields `{status: failed, message: "boom",
task_id: "t5"}`. -/
theorem C5_witness :
    extract_openai_results failedMappingResp =
      ExtractResult.failed "X" (some (some "E1")) (some "task-1") ∧
    extract_openai_results ⟨"t5", "failed", PyError.scalar "boom", []⟩ =
      ExtractResult.failed "boom" none (some "t5") := by
  constructor
  · exact (C5_failed_task_shape failedMappingResp [("message", "X"), ("code", "E1")] "" rfl).1
      rfl (by decide)
  · exact (C5_failed_task_shape ⟨"t5", "failed", PyError.scalar "boom", []⟩ [] "boom" rfl).2
      rfl (by decide)

/-- Counterexample for C9 as stated: on a non-failed response with no output
items the extraction message is the capitalized string `"No output received"`,
not the claimed lowercase `"no output received"`. -/
theorem C9_counterexample :
    extract_openai_results ⟨"t0", "completed", PyError.absent, []⟩ =
      ExtractResult.error "No output received" ∧
    extract_openai_results ⟨"t0", "completed", PyError.absent, []⟩ ≠
      ExtractResult.error "no output received" := by
  constructor
  · rfl
  · decide

/-- C9 (amended): for every provider response whose status is not `failed`
and whose output item list is empty, `extract_results` returns
`{status: error, message: "No output received"}` — status `error`, not
`failed`, distinguishing this local condition from a remote-reported
failure. -/
theorem C9_no_output_error (r : Response)
    (hstatus : r.status ≠ "failed") (hout : r.output = []) :
    extract_openai_results r = ExtractResult.error "No output received" := by
  unfold extract_openai_results
  rw [if_neg hstatus, hout]

/-- Witness for C9: a queued response with empty output extracts to the
`error`-status result. -/
theorem C9_witness :
    extract_openai_results ⟨"t0b", "queued", PyError.absent, []⟩ =
      ExtractResult.error "No output received" :=
  C9_no_output_error ⟨"t0b", "queued", PyError.absent, []⟩ (by decide) rfl

/-- C6: in the clarification session manager, for a session with 3 questions
`add_answers` with 2 answers reports `is_complete = false` and a subsequent
`add_answers` recording 3 answers reports `is_complete = true`; in general
`is_complete` holds iff `len(answers) >= len(questions)`;
`get_enriched_query` on an unknown session id returns `None`; and
`add_answers` on an unknown session id returns the `{"error": ...}`
dictionary (it is a total function, so it does not raise). -/
theorem C6_clarification_session_lifecycle
    (call : String → Except String String)
    (sessions : List (String × ClarificationSession))
    (sid sidU sidV q : String) (qs : List String) (a1 a2 a3 : String)
    (ansV : List String)
    (hq : qs.length = 3)
    (hfound : lookupSession sessions sid = some ⟨sid, q, qs, []⟩)
    (hU : lookupSession sessions sidU = none)
    (hV : lookupSession sessions sidV = none) :
    (add_answers sessions sid [a1, a2]).1.isCompleteOf = some false ∧
    (add_answers (add_answers sessions sid [a1, a2]).2 sid [a1, a2, a3]).1.isCompleteOf =
      some true ∧
    (∀ (s : ClarificationSession) (sid2 : String) (ans : List String),
        lookupSession sessions sid2 = some s →
        (add_answers sessions sid2 ans).1.isCompleteOf =
          some (decide (s.questions.length ≤ ans.length))) ∧
    get_enriched_query call sessions sidU = none ∧
    (add_answers sessions sidV ansV).1 =
      AddAnswersResult.err ("Session " ++ sidV ++ " not found") := by
  refine ⟨?_, ?_, ?_, ?_, ?_⟩
  · rw [add_answers_isCompleteOf sessions sid ⟨sid, q, qs, []⟩ [a1, a2] hfound]
    show some (decide (qs.length ≤ 2)) = some false
    rw [hq]
    rfl
  · have hstep := add_answers_updates sessions sid ⟨sid, q, qs, []⟩ [a1, a2] hfound
    rw [add_answers_isCompleteOf (add_answers sessions sid [a1, a2]).2 sid
      ⟨sid, q, qs, [a1, a2]⟩ [a1, a2, a3] hstep]
    show some (decide (qs.length ≤ 3)) = some true
    rw [hq]
    rfl
  · intro s sid2 ans h2
    exact add_answers_isCompleteOf sessions sid2 s ans h2
  · unfold get_enriched_query
    rw [hU]
  · unfold add_answers
    rw [hV]

/-- Witness for C6: on a concrete table with one three-question session,
2 answers leave the session incomplete, a second call with 3 answers
completes it, `get_enriched_query` of an unknown id is `none`, and
`add_answers` of an unknown id is the error dictionary. -/
theorem C6_witness :
    (add_answers sessionsC6 "s6" ["a1", "a2"]).1.isCompleteOf = some false ∧
    (add_answers (add_answers sessionsC6 "s6" ["a1", "a2"]).2 "s6"
        ["a1", "a2", "a3"]).1.isCompleteOf = some true ∧
    get_enriched_query (fun _ => Except.error "down") sessionsC6 "unknown-id" = none ∧
    (add_answers sessionsC6 "missing-id" ["x"]).1 =
      AddAnswersResult.err ("Session " ++ "missing-id" ++ " not found") := by
  have h := C6_clarification_session_lifecycle (fun _ => Except.error "down") sessionsC6
    "s6" "unknown-id" "missing-id" "orig" ["q1", "q2", "q3"] "a1" "a2" "a3" ["x"]
    rfl rfl rfl rfl
  exact ⟨h.1, h.2.1, h.2.2.2.1, h.2.2.2.2⟩

/-- Counterexample for C7 as stated: on a two-question session, calling
`add_answers` with `["a1"]` and then with `["a2"]` leaves the stored answer
list equal to `["a2"]` — the answer of the first call is discarded, not kept in
front. -/
theorem C7_counterexample :
    (lookupSession (add_answers (add_answers sessionsC7 "s7" ["a1"]).2 "s7" ["a2"]).2
        "s7").map ClarificationSession.answers = some ["a2"] ∧
    some ["a2"] ≠ some ["a1", "a2"] := by
  constructor
  · rfl
  · decide

/-- C7 (amended): for every existing clarification session, `add_answers`
replaces the answer list of the session wholesale with the newly supplied list
(`session.answers = answers`), so after a second call the stored list equals
exactly the answers of the second call, earlier answers being discarded. -/
theorem C7_add_answers_replaces (sessions : List (String × ClarificationSession))
    (sid : String) (s : ClarificationSession) (answers : List String)
    (h : lookupSession sessions sid = some s) :
    lookupSession (add_answers sessions sid answers).2 sid =
      some { s with answers := answers } := by
  unfold add_answers
  rw [h]
  exact lookupSession_setSession sessions sid s { s with answers := answers } h

/-- Witness for C7: replacing the recorded answer `["old"]` by `["new"]`. -/
theorem C7_witness :
    lookupSession (add_answers sessionsC7w "w7" ["new"]).2 "w7" =
      some ⟨"w7", "orig", ["q1"], ["new"]⟩ :=
  C7_add_answers_replaces sessionsC7w "w7" ⟨"w7", "orig", ["q1"], ["old"]⟩ ["new"] rfl

/-- C8: for every original query and every list of question/answer pairs, if
the enrichment model call raises, `enrich_query` returns the original query
unchanged instead of propagating the exception. -/
theorem C8_enrich_query_fallback (call : String → Except String String)
    (user_query : String) (qa_pairs : List (String × String)) (e : String)
    (hraise : call (enrichment_prompt user_query qa_pairs) = Except.error e) :
    enrich_query call user_query qa_pairs = user_query := by
  unfold enrich_query
  rw [hraise]

/-- Witness for C8: a model call that always raises leaves the query as is. -/
theorem C8_witness :
    enrich_query (fun _ => Except.error "APIError") "orig query" [("q1", "a1")] =
      "orig query" :=
  C8_enrich_query_fallback (fun _ => Except.error "APIError") "orig query"
    [("q1", "a1")] "APIError" rfl

/-- C2: evidence of the code bug (evaluation at the failing input).  Against a
provider that reports `status = "failed"` with error payload
`{message: "X", code: "E1"}` on every poll, the loop under
`timeout = 10, poll_interval = 3` does not propagate the typed failure error:
the `raise` is caught by the blanket `except Exception` handler of the loop itself
(the extracted message appears twice in the swallowed-exception log, once per
5-second retry), and the loop runs to the deadline, exiting with the
`TaskTimeoutError` instead — contradicting the claim (and spec), which say
the typed error with the extracted message/code propagates to the caller on
the first `failed` observation. -/
theorem C2_failed_status_swallowed_until_timeout :
    wait_for_completion ⟨10, 3⟩ "task-1" (fun _ => PollOutcome.ok failedMappingResp) 3 0 0 =
      some ⟨WaitResult.timeoutErr "task-1" 10, 10, 1,
        ["Research task failed: X (Code: E1)", "Research task failed: X (Code: E1)"]⟩ := by
  norm_num [wait_for_completion, failed_error_msg, PyError.truthy, pyGet, failedMappingResp,
    List.find?]
  decide

/-- C3: against a provider that never reports a terminal status, the polling
loop (given enough fuel to reach the deadline, `timeout ≤ fuel·poll_interval`)
exits with the `TaskTimeoutError` carrying the task id and the configured
timeout value, attempts the remote cancellation exactly once (the cancel
sits in `try/except: pass`, so its failure affects nothing), swallows no
other exception, and its exit time `elapsed` satisfies
`timeout ≤ elapsed < timeout + poll_interval` — it stops polling as soon as
the elapsed time reaches the timeout, within one extra poll interval. -/
theorem C3_timeout_honored (cfg : WaitConfig) (tid : String)
    (provider : Nat → PollOutcome) (fuel : Nat)
    (hpoll : 0 < cfg.poll_interval) (htimeout : 0 < cfg.timeout)
    (hprov : ∀ m, (provider m).nonTerminal)
    (hfuel : cfg.timeout ≤ (fuel : ℚ) * cfg.poll_interval) :
    (wait_for_completion cfg tid provider (fuel + 1) 0 0).map
        (fun ex => (ex.result, ex.cancel_attempts, ex.swallowed)) =
      some (WaitResult.timeoutErr tid cfg.timeout, 1, []) ∧
    ∀ ex : WaitExit, wait_for_completion cfg tid provider (fuel + 1) 0 0 = some ex →
      cfg.timeout ≤ ex.elapsed ∧ ex.elapsed < cfg.timeout + cfg.poll_interval := by
  obtain ⟨e, heq, h1, h2⟩ := wait_nonterminal_timeout_aux cfg tid provider hprov fuel 0 0
    (by simpa using hfuel) (by linarith)
  constructor
  · rw [heq]
    rfl
  · intro ex hex
    rw [heq] at hex
    cases Option.some.inj hex
    exact ⟨h1, h2⟩

/-- Witness for C3: with `timeout = 10`, `poll_interval = 3` and a provider
stuck on `running`, the loop exits with the timeout error, one cancellation
attempt and an empty swallowed log. -/
theorem C3_witness :
    (wait_for_completion ⟨10, 3⟩ "t3" (fun _ => PollOutcome.ok (runningResp "t3"))
        (4 + 1) 0 0).map (fun ex => (ex.result, ex.cancel_attempts, ex.swallowed)) =
      some (WaitResult.timeoutErr "t3" 10, 1, []) :=
  (C3_timeout_honored ⟨10, 3⟩ "t3" (fun _ => PollOutcome.ok (runningResp "t3")) 4
    (by norm_num) (by norm_num)
    (fun m => by
      show ("running" : String) ≠ "completed" ∧ ("running" : String) ≠ "failed"
      decide)
    (by norm_num)).1

/-- Counterexample for C1 as stated: when all three submission attempts raise
(`SubmitOutcome.exhausted`, tenacity re-raising the underlying exception),
`research` does not return a structured result — the exception propagates to
its caller. -/
theorem C1_counterexample :
    research (SubmitOutcome.exhausted "connection error") (fun _ => PollOutcome.exn "net")
        ⟨10, 3⟩ 1 = ResearchOutcome.raised "connection error" ∧
    (research (SubmitOutcome.exhausted "connection error") (fun _ => PollOutcome.exn "net")
        ⟨10, 3⟩ 1).isRaised = true :=
  ⟨rfl, rfl⟩

/-- C1 (amended): once submission has succeeded, `research` never raises:
whenever the polling loop terminates, `research` returns a structured result
dictionary — a timeout (the only error the loop can raise) is translated into
`{status: failed, message: str(e)}` and a completed response is passed to
result extraction (a total function here); but when submission retries are
exhausted the underlying exception propagates out of `research` to its
caller. -/
theorem C1_research_result_contract (tid : String) (provider : Nat → PollOutcome)
    (cfg : WaitConfig) (fuel : Nat) (ex : WaitExit)
    (hwait : wait_for_completion cfg tid provider fuel 0 0 = some ex) :
    (research (SubmitOutcome.ok tid) provider cfg fuel).isRaised = false ∧
    (∀ t tv, ex.result = WaitResult.timeoutErr t tv →
      research (SubmitOutcome.ok tid) provider cfg fuel =
        ResearchOutcome.result (ExtractResult.failed (timeoutMessage t tv) none none)) ∧
    (∀ r, ex.result = WaitResult.completed r →
      research (SubmitOutcome.ok tid) provider cfg fuel =
        ResearchOutcome.result (extract_openai_results r)) ∧
    (∀ m, research (SubmitOutcome.exhausted m) provider cfg fuel =
      ResearchOutcome.raised m) := by
  unfold research
  dsimp only
  rw [hwait]
  refine ⟨?_, ?_, ?_, fun m => rfl⟩
  · cases hres : ex.result with
    | completed r => simp [hres, ResearchOutcome.isRaised]
    | timeoutErr t tv => simp [hres, ResearchOutcome.isRaised]
  · intro t tv h
    dsimp only
    rw [h]
  · intro r h
    dsimp only
    rw [h]

/-- Witness for C1: with a successful submission and a provider stuck on
`running`, the timeout is translated into the structured
`{status: failed, message}` result rather than raised. -/
theorem C1_witness :
    research (SubmitOutcome.ok "t1w") (fun _ => PollOutcome.ok (runningResp "t1w"))
        ⟨10, 3⟩ 5 =
      ResearchOutcome.result
        (ExtractResult.failed (timeoutMessage "t1w" 10) none none) := by
  have hw : wait_for_completion ⟨10, 3⟩ "t1w"
      (fun _ => PollOutcome.ok (runningResp "t1w")) 5 0 0 =
      some ⟨WaitResult.timeoutErr "t1w" 10, 12, 1, []⟩ := by
    norm_num [wait_for_completion, runningResp]
    decide
  exact (C1_research_result_contract "t1w" (fun _ => PollOutcome.ok (runningResp "t1w"))
    ⟨10, 3⟩ 5 ⟨WaitResult.timeoutErr "t1w" 10, 12, 1, []⟩ hw).2.1 "t1w" 10 rfl

/-- C10: the token-bucket invariant of the rate limiter.  Starting from a freshly
constructed limiter with non-negative capacity, after any sequence of
`acquire(n)` calls with non-negative token requests and non-negative elapsed
times the token count stays within `[0, capacity]`; moreover for any single
call, the refill is capped at capacity, a successful acquire debits exactly
`n` from the refilled count, and a failed acquire leaves the refilled count
undebited. -/
theorem C10_rate_limiter_invariant (c : ℚ) (calls : List (ℚ × ℚ))
    (hc : 0 ≤ c)
    (hcalls : ∀ p ∈ calls, 0 ≤ p.1 ∧ 0 ≤ p.2) :
    (RateLimiter.runAcquires (RateLimiter.init c) calls).Inv ∧
    ∀ (st : RateLimiterState) (dt n : ℚ),
      ((RateLimiter.acquire st dt n).1 = true →
        (RateLimiter.acquire st dt n).2.tokens =
          min st.capacity (st.tokens + dt * st.refill_rate) - n) ∧
      ((RateLimiter.acquire st dt n).1 = false →
        (RateLimiter.acquire st dt n).2.tokens =
          min st.capacity (st.tokens + dt * st.refill_rate)) ∧
      min st.capacity (st.tokens + dt * st.refill_rate) ≤ st.capacity := by
  constructor
  · refine runAcquires_inv calls (RateLimiter.init c) ?_ ?_ hcalls
    · show 0 ≤ c / 60
      positivity
    · exact ⟨hc, le_refl c⟩
  · intro st dt n
    refine ⟨?_, ?_, min_le_left _ _⟩
    · intro h
      rw [acquire_def] at h ⊢
      by_cases hle : n ≤ min st.capacity (st.tokens + dt * st.refill_rate)
      · rw [if_pos hle]
      · rw [if_neg hle] at h
        cases h
    · intro h
      rw [acquire_def] at h ⊢
      by_cases hle : n ≤ min st.capacity (st.tokens + dt * st.refill_rate)
      · rw [if_pos hle] at h
        cases h
      · rw [if_neg hle]

/-- Witness for C10: a limiter of capacity 100, drained by `acquire(100)` and
then asked for one more token, still satisfies the invariant. -/
theorem C10_witness :
    (RateLimiter.runAcquires (RateLimiter.init 100) [(0, 100), (0, 1)]).Inv :=
  (C10_rate_limiter_invariant 100 [(0, 100), (0, 1)] (by norm_num)
    (by
      intro p hp
      fin_cases hp <;> norm_num)).1

end DeepResearchMCP
